import Mathlib

/-!
Shallow embedding of `python-eeschema` (file `eeschema/__init__.py`), a
library that builds an in-memory model of a KiCad EESchema symbol library
and serializes it to the `.lib` text format.

Modelling choices:
* Python integers that hold coordinates, sizes, angles and lengths are
  `Int`; field ids are `Nat` (the data model restricts them to
  non-negative integers).
* The single-letter enumeration codes (orientation, justification, fill)
  are kept as the literal strings the source stores in the attributes.
* `Component.fields` is a Python `dict` keyed by `f.id`.  CPython (3.7+)
  dicts iterate in insertion order, and assigning to an existing key
  replaces the value in place, keeping its position.  The dict is embedded
  as a `List Field` (the key of each entry is its `id` attribute) and
  `d[f.id] = f` becomes `dictInsert`.
* Each `to_lib` method is a pure function returning the exact string the
  Python `%`-formatting produces; `str.replace(" ", "~")` for the
  one-character pattern is the character map `tildeSpaces`.
-/

namespace EESchema

/-- The `Field` class: one metadata line of a symbol. Attribute order and
defaults follow `Field.__init__`. -/
structure Field where
  id : Nat
  text : String
  x : Int
  y : Int
  dimension : Int
  visible : Bool
  orientation : String
  hjustify : String
  vjustify : String
  italic : Bool
  bold : Bool
  name : Option String
  deriving DecidableEq

/-- `Field(id, text)` with every keyword argument left at its default
(`x = 0`, `y = 0`, `dimension = 50`, `visible = True`,
`orientation = "H"`, `hjustify = "L"`, `vjustify = "C"`,
`italic = False`, `bold = False`, `name = None`). -/
def Field.make (id : Nat) (text : String) : Field :=
  ⟨id, text, 0, 0, 50, true, "H", "L", "C", false, false, none⟩

/-- `Field(id, text, visible = False)`, as used for ids 2 and 3 in
`Component.__init__`. -/
def Field.makeInvisible (id : Nat) (text : String) : Field :=
  ⟨id, text, 0, 0, 50, false, "H", "L", "C", false, false, none⟩

/-- `Field.to_lib`: `"F%d \"%s\" %d %d %d %s %s %s %s%s%s"`. -/
def Field.to_lib (f : Field) : String :=
  "F" ++ toString f.id ++ " \"" ++ f.text ++ "\" " ++ toString f.x ++ " "
    ++ toString f.y ++ " " ++ toString f.dimension ++ " " ++ f.orientation
    ++ " " ++ (if f.visible then "V" else "I") ++ " " ++ f.hjustify ++ " "
    ++ f.vjustify ++ (if f.italic then "I" else "N")
    ++ (if f.bold then "B" else "N")

/-- The `Pin` class.  `number` is stored through `str`, so it is a
`String` here. -/
structure Pin where
  name : String
  number : String
  x : Int
  y : Int
  length : Int
  orientation : String
  size_num : Int
  size_name : Int
  deriving DecidableEq

/-- `Pin(name, number)` with every keyword argument left at its default
(`x = 0`, `y = 0`, `length = 100`, `orientation = "R"`,
`size_num = 50`, `size_name = 50`). -/
def Pin.make (name number : String) : Pin :=
  ⟨name, number, 0, 0, 100, "R", 50, 50⟩

/-- `Pin.to_lib`: `"X %s %s %d %d %d %s %d %d 0 0 I"`. -/
def Pin.to_lib (p : Pin) : String :=
  "X " ++ p.name ++ " " ++ p.number ++ " " ++ toString p.x ++ " "
    ++ toString p.y ++ " " ++ toString p.length ++ " " ++ p.orientation
    ++ " " ++ toString p.size_num ++ " " ++ toString p.size_name ++ " 0 0 I"

/-- The `Arc` graphic class (common attributes `thickness`, `fill` from
`Graphic` are flattened in). -/
structure Arc where
  x : Int
  y : Int
  radius : Int
  start_angle : Int
  end_angle : Int
  start_x : Int
  start_y : Int
  end_x : Int
  end_y : Int
  thickness : Int
  fill : String
  deriving DecidableEq

/-- `Arc.to_lib`: `"A %d %d %d %d %d 0 1 %d %s %d %d %d %d"`. -/
def Arc.to_lib (a : Arc) : String :=
  "A " ++ toString a.x ++ " " ++ toString a.y ++ " " ++ toString a.radius
    ++ " " ++ toString a.start_angle ++ " " ++ toString a.end_angle
    ++ " 0 1 " ++ toString a.thickness ++ " " ++ a.fill ++ " "
    ++ toString a.start_x ++ " " ++ toString a.start_y ++ " "
    ++ toString a.end_x ++ " " ++ toString a.end_y

/-- The `Circle` graphic class. -/
structure Circle where
  x : Int
  y : Int
  radius : Int
  thickness : Int
  fill : String
  deriving DecidableEq

/-- `Circle.to_lib`: `"C %d %d %d 0 1 %d %s"`. -/
def Circle.to_lib (c : Circle) : String :=
  "C " ++ toString c.x ++ " " ++ toString c.y ++ " " ++ toString c.radius
    ++ " 0 1 " ++ toString c.thickness ++ " " ++ c.fill

/-- The `Polyline` graphic class. -/
structure Polyline where
  points : List (Int × Int)
  thickness : Int
  fill : String
  deriving DecidableEq

/-- `Polyline(points)` with default `thickness = 0` and
`fill = Graphic.NONE = "N"`. -/
def Polyline.make (points : List (Int × Int)) : Polyline :=
  ⟨points, 0, "N"⟩

/-- The point loop of `Polyline.to_lib`: `ret += "%d %d " % (p[0], p[1])`
for each point. -/
def catPoints : List (Int × Int) → String
  | [] => ""
  | p :: rest => toString p.1 ++ " " ++ toString p.2 ++ " " ++ catPoints rest

/-- `Polyline.to_lib`: `"P %d 0 1 %d "` with the point count and
thickness, then the point loop, then the fill code. -/
def Polyline.to_lib (pl : Polyline) : String :=
  "P " ++ toString pl.points.length ++ " 0 1 " ++ toString pl.thickness
    ++ " " ++ catPoints pl.points ++ pl.fill

/-- The `Rectangle` graphic class. -/
structure Rectangle where
  start_x : Int
  start_y : Int
  end_x : Int
  end_y : Int
  thickness : Int
  fill : String
  deriving DecidableEq

/-- `Rectangle.to_lib`: `"S %d %d %d %d 0 1 %d %s"`. -/
def Rectangle.to_lib (r : Rectangle) : String :=
  "S " ++ toString r.start_x ++ " " ++ toString r.start_y ++ " "
    ++ toString r.end_x ++ " " ++ toString r.end_y ++ " 0 1 "
    ++ toString r.thickness ++ " " ++ r.fill

/-- The `Text` graphic class. -/
structure Text where
  x : Int
  y : Int
  text : String
  direction : Int
  size : Int
  italic : Bool
  bold : Bool
  hjustify : String
  vjustify : String
  deriving DecidableEq

/-- `Text(x, y, text)` with every keyword argument left at its default
(`direction = HORIZONTAL = 0`, `size = 60`, `italic = False`,
`bold = False`, `hjustify = "C"`, `vjustify = "C"`). -/
def Text.make (x y : Int) (text : String) : Text :=
  ⟨x, y, text, 0, 60, false, false, "C", "C"⟩

/-- Python's `s.replace(" ", "~")`: the pattern is a single character, so
the call maps each space of `s` to a tilde and leaves every other
character unchanged. -/
def tildeSpaces (s : String) : String :=
  String.mk (s.data.map (fun c => if c = ' ' then '~' else c))

/-- `Text.to_lib`: `"T %d %d %d %d 0 0 1 %s %s %s %s %s"` where the text
slot receives `self.text.replace(" ", "~")`. -/
def Text.to_lib (t : Text) : String :=
  "T " ++ toString t.direction ++ " " ++ toString t.x ++ " "
    ++ toString t.y ++ " " ++ toString t.size ++ " 0 0 1 "
    ++ tildeSpaces t.text ++ " " ++ (if t.italic then "Italic" else "Normal")
    ++ " " ++ (if t.bold then "0" else "1") ++ " " ++ t.hjustify ++ " "
    ++ t.vjustify

/-- An element of `Component.graphic`: `add_pin`/`add_graphic` accept any
of the drawable classes (the `Graphic` subclasses and `Pin`), so the
sequence is a sum of those. -/
inductive GraphicItem where
  | pin : Pin → GraphicItem
  | arc : Arc → GraphicItem
  | circle : Circle → GraphicItem
  | polyline : Polyline → GraphicItem
  | rectangle : Rectangle → GraphicItem
  | text : Text → GraphicItem
  deriving DecidableEq

/-- Dispatch of the `to_lib` call on an element of `Component.graphic`. -/
def GraphicItem.to_lib : GraphicItem → String
  | .pin p => p.to_lib
  | .arc a => a.to_lib
  | .circle c => c.to_lib
  | .polyline pl => pl.to_lib
  | .rectangle r => r.to_lib
  | .text t => t.to_lib

/-- The `Component` class (one symbol of the library). -/
structure Component where
  name : String
  reference : String
  drawpinnumber : Bool
  drawpinname : Bool
  aliases : List String
  fields : List Field
  graphic : List GraphicItem
  deriving DecidableEq

/-- Python dict assignment `self.fields[f.id] = f` on the insertion-order
view of the dict: if the key `f.id` is present (dict keys are unique, so
at most one entry can match) the entry is replaced in place, keeping its
position; otherwise the new entry is appended at the end. -/
def dictInsert : List Field → Field → List Field
  | [], f => [f]
  | g :: l, f => if g.id = f.id then f :: l else g :: dictInsert l f

/-- `Component.add_field`: `self.fields[f.id] = f`. -/
def Component.add_field (c : Component) (f : Field) : Component :=
  { c with fields := dictInsert c.fields f }

/-- `Component.add_pin`: `self.graphic.append(p)`. -/
def Component.add_pin (c : Component) (p : GraphicItem) : Component :=
  { c with graphic := c.graphic ++ [p] }

/-- `Component.add_graphic` just delegates to `add_pin`. -/
def Component.add_graphic (c : Component) (p : GraphicItem) : Component :=
  c.add_pin p

/-- `Component.__init__(name, reference, drawpinnumber, drawpinname,
aliases)`: stores the five attributes, starts from an empty field dict
and an empty graphic list, then `add_field`s `Field(0, reference)`,
`Field(1, name)`, `Field(2, "", visible = False)` and
`Field(3, "", visible = False)` in that order. -/
def Component.init (name reference : String) (drawpinnumber drawpinname : Bool)
    (aliases : List String) : Component :=
  ((((⟨name, reference, drawpinnumber, drawpinname, aliases, [], []⟩ :
        Component).add_field
      (Field.make 0 reference)).add_field
      (Field.make 1 name)).add_field
      (Field.makeInvisible 2 "")).add_field
      (Field.makeInvisible 3 "")

/-- Python's `" ".join(l)`. -/
def joinSpace : List String → String
  | [] => ""
  | [a] => a
  | a :: b :: rest => a ++ " " ++ joinSpace (b :: rest)

/-- A loop of the shape `for x in l: ret += x.to_lib() + "\n"`. -/
def catLines : List String → String
  | [] => ""
  | s :: rest => s ++ "\n" ++ catLines rest

/-- A loop of the shape `for x in l: ret += x.to_lib()`. -/
def catAll : List String → String
  | [] => ""
  | s :: rest => s ++ catAll rest

/-- The `DEF` header line of `Component.to_lib`:
`"DEF %s %s 0 40 %s %s 1 F N\n"`. -/
def Component.defLine (c : Component) : String :=
  "DEF " ++ c.name ++ " " ++ c.reference ++ " 0 40 "
    ++ (if c.drawpinnumber then "Y" else "N") ++ " "
    ++ (if c.drawpinname then "Y" else "N") ++ " 1 F N\n"

/-- The optional `ALIAS` line of `Component.to_lib`, emitted only when
`self.aliases` is non-empty. -/
def Component.aliasBlock (c : Component) : String :=
  if c.aliases.isEmpty then "" else "ALIAS " ++ joinSpace c.aliases ++ "\n"

/-- The field lines of `Component.to_lib`: one `f.to_lib() + "\n"` per
entry of `self.fields.values()`, in dict order. -/
def Component.fieldsBlock (c : Component) : String :=
  catLines (c.fields.map Field.to_lib)

/-- The lines of `Component.to_lib` between `DRAW` and `ENDDRAW`: one
`g.to_lib() + "\n"` per entry of `self.graphic`, in list order. -/
def Component.drawBlock (c : Component) : String :=
  catLines (c.graphic.map GraphicItem.to_lib)

/-- `Component.to_lib`: header, optional alias line, field lines,
`DRAW`, graphic lines, `ENDDRAW`, `ENDDEF`. -/
def Component.to_lib (c : Component) : String :=
  c.defLine ++ c.aliasBlock ++ c.fieldsBlock ++ "DRAW\n" ++ c.drawBlock
    ++ "ENDDRAW\n" ++ "ENDDEF\n"

/-- The `SchemaLib` class: an insertion-ordered list of components. -/
structure SchemaLib where
  components : List Component
  deriving DecidableEq

/-- `SchemaLib.add_component`: `self.components.append(component)`. -/
def SchemaLib.add_component (l : SchemaLib) (c : Component) : SchemaLib :=
  ⟨l.components ++ [c]⟩

/-- `SchemaLib.to_lib`: the two header lines, each component's block in
insertion order, the footer line.  The appends are grouped the way the
Python `ret += ...` accumulation groups them. -/
def SchemaLib.to_lib (l : SchemaLib) : String :=
  (("EESchema-LIBRARY Version 2.3\n" ++ "#encoding utf-8\n")
      ++ catAll (l.components.map Component.to_lib)) ++ "#End Library\n"

/-- Lookup in the field dict: the entry stored under key `i`, if any
(`self.fields[i]` / `self.fields.get(i)`). -/
def Component.getField (c : Component) (i : Nat) : Option Field :=
  c.fields.find? (fun g => g.id == i)

/-- The dict keys in iteration order: the ids of the emitted field lines,
in emission order. -/
def emittedFieldIds (c : Component) : List Nat :=
  c.fields.map Field.id

/-- A single mutating call on a component: `add_field` or
`add_pin`/`add_graphic`. -/
inductive Op where
  | addField : Field → Op
  | addPin : GraphicItem → Op
  deriving DecidableEq

/-- Apply one mutating call. -/
def Component.applyOp (c : Component) : Op → Component
  | .addField f => c.add_field f
  | .addPin p => c.add_pin p

/-- Apply a sequence of mutating calls, left to right. -/
def Component.applyOps (c : Component) (ops : List Op) : Component :=
  ops.foldl Component.applyOp c

/-! Association-list lemmas about `dictInsert` (the embedding of Python
dict assignment), and structural lemmas about the loops. -/

theorem find?_dictInsert_self (l : List Field) (f : Field) :
    (dictInsert l f).find? (fun g => g.id == f.id) = some f := by
  induction l with
  | nil => simp [dictInsert]
  | cons g rest ih =>
    by_cases h : g.id = f.id
    · simp [dictInsert, h]
    · simp only [dictInsert, if_neg h]
      rw [List.find?_cons_of_neg _ (by simp [h])]
      exact ih

theorem find?_dictInsert_ne (l : List Field) (f : Field) (j : Nat) (hj : j ≠ f.id) :
    (dictInsert l f).find? (fun g => g.id == j) = l.find? (fun g => g.id == j) := by
  induction l with
  | nil => simp [dictInsert, Ne.symm hj]
  | cons g rest ih =>
    by_cases h : g.id = f.id
    · simp only [dictInsert, if_pos h]
      rw [List.find?_cons_of_neg _ (by simp [Ne.symm hj]),
        List.find?_cons_of_neg _ (by simp [h, Ne.symm hj])]
    · simp only [dictInsert, if_neg h]
      by_cases hgj : g.id = j
      · rw [List.find?_cons_of_pos _ (by simp [hgj]),
          List.find?_cons_of_pos _ (by simp [hgj])]
      · rw [List.find?_cons_of_neg _ (by simp [hgj]),
          List.find?_cons_of_neg _ (by simp [hgj])]
        exact ih

theorem mem_id_dictInsert (l : List Field) (f : Field) (i : Nat) :
    i ∈ (dictInsert l f).map Field.id ↔ i ∈ l.map Field.id ∨ i = f.id := by
  induction l with
  | nil => simp [dictInsert]
  | cons g rest ih =>
    by_cases h : g.id = f.id
    · simp only [dictInsert, if_pos h, List.map_cons, List.mem_cons]
      rw [h]
      tauto
    · simp only [dictInsert, if_neg h, List.map_cons, List.mem_cons, ih]
      tauto

theorem nodup_id_dictInsert (l : List Field) (f : Field)
    (h : (l.map Field.id).Nodup) : ((dictInsert l f).map Field.id).Nodup := by
  induction l with
  | nil => simp [dictInsert]
  | cons g rest ih =>
    simp only [List.map_cons, List.nodup_cons] at h
    by_cases hgf : g.id = f.id
    · simp only [dictInsert, if_pos hgf, List.map_cons, List.nodup_cons]
      exact ⟨hgf ▸ h.1, h.2⟩
    · simp only [dictInsert, if_neg hgf, List.map_cons, List.nodup_cons]
      refine ⟨?_, ih h.2⟩
      intro hmem
      rcases (mem_id_dictInsert rest f g.id).mp hmem with hin | heq
      · exact h.1 hin
      · exact hgf heq

theorem filter_id_eq_nil (l : List Field) (i : Nat) (h : i ∉ l.map Field.id) :
    l.filter (fun g => g.id == i) = [] := by
  induction l with
  | nil => rfl
  | cons g rest ih =>
    simp only [List.map_cons, List.mem_cons] at h
    push_neg at h
    simp [List.filter_cons, Ne.symm h.1, ih h.2]

theorem filter_dictInsert_self (l : List Field) (f : Field)
    (h : (l.map Field.id).Nodup) :
    (dictInsert l f).filter (fun g => g.id == f.id) = [f] := by
  induction l with
  | nil => simp [dictInsert]
  | cons g rest ih =>
    simp only [List.map_cons, List.nodup_cons] at h
    by_cases hgf : g.id = f.id
    · simp only [dictInsert, if_pos hgf, List.filter_cons, beq_self_eq_true,
        if_pos trivial]
      simp [filter_id_eq_nil rest f.id (hgf ▸ h.1)]
    · simp only [dictInsert, if_neg hgf, List.filter_cons]
      simp [hgf, ih h.2]

theorem catLines_append (xs ys : List String) :
    catLines (xs ++ ys) = catLines xs ++ catLines ys := by
  induction xs with
  | nil => simp [catLines]
  | cons s rest ih => simp [catLines, ih, String.append_assoc]

theorem getField_add_pin (c : Component) (p : GraphicItem) (i : Nat) :
    (c.add_pin p).getField i = c.getField i := rfl

theorem getField_add_field_self (c : Component) (f : Field) :
    (c.add_field f).getField f.id = some f :=
  find?_dictInsert_self c.fields f

theorem getField_add_field_ne (c : Component) (f : Field) (j : Nat)
    (hj : j ≠ f.id) : (c.add_field f).getField j = c.getField j :=
  find?_dictInsert_ne c.fields f j hj

theorem isSome_getField_applyOps (c : Component) (ops : List Op) (i : Nat)
    (h : (c.getField i).isSome) : ((c.applyOps ops).getField i).isSome := by
  induction ops generalizing c with
  | nil => exact h
  | cons op rest ih =>
    show ((c.applyOp op).applyOps rest).getField i |>.isSome
    apply ih
    cases op with
    | addField f =>
      by_cases hif : i = f.id
      · subst hif
        rw [show (c.applyOp (Op.addField f)) = c.add_field f from rfl,
          getField_add_field_self]
        rfl
      · rw [show (c.applyOp (Op.addField f)) = c.add_field f from rfl,
          getField_add_field_ne c f i hif]
        exact h
    | addPin p => exact h

theorem graphic_applyOps_addPins (c : Component) (ps : List GraphicItem) :
    (c.applyOps (ps.map Op.addPin)).graphic = c.graphic ++ ps := by
  induction ps generalizing c with
  | nil => simp [Component.applyOps]
  | cons p rest ih =>
    show ((c.applyOp (Op.addPin p)).applyOps (rest.map Op.addPin)).graphic = _
    rw [show c.applyOp (Op.addPin p) = c.add_pin p from rfl, ih]
    simp [Component.add_pin]

/-- The part of `Text.to_lib` before the text slot. -/
def Text.preText (t : Text) : String :=
  "T " ++ toString t.direction ++ " " ++ toString t.x ++ " "
    ++ toString t.y ++ " " ++ toString t.size ++ " 0 0 1 "

/-- The part of `Text.to_lib` after the text slot.  Neither `preText` nor
`postText` mentions `t.text`. -/
def Text.postText (t : Text) : String :=
  " " ++ (if t.italic then "Italic" else "Normal") ++ " "
    ++ (if t.bold then "0" else "1") ++ " " ++ t.hjustify ++ " " ++ t.vjustify

/-- The part of `Field.to_lib` before the text slot. -/
def Field.preText (f : Field) : String :=
  "F" ++ toString f.id ++ " \""

/-- The part of `Field.to_lib` after the text slot.  Neither `preText`
nor `postText` mentions `f.text`. -/
def Field.postText (f : Field) : String :=
  "\" " ++ toString f.x ++ " " ++ toString f.y ++ " " ++ toString f.dimension
    ++ " " ++ f.orientation ++ " " ++ (if f.visible then "V" else "I") ++ " "
    ++ f.hjustify ++ " " ++ f.vjustify ++ (if f.italic then "I" else "N")
    ++ (if f.bold then "B" else "N")

/-- The two header lines of `SchemaLib.to_lib` concatenate to the
spec's exact file prefix. -/
theorem header_append :
    ("EESchema-LIBRARY Version 2.3\n" : String) ++ "#encoding utf-8\n"
      = "EESchema-LIBRARY Version 2.3\n#encoding utf-8\n" := rfl

/-- Claim C1 is false on the code: on the symbol built by
`Component("X")` followed by `add_field(Field(7, "a"))` and
`add_field(Field(5, "b"))` — two user-defined ids ≥ 4 added out of
order — the emitted field ids are `[0, 1, 2, 3, 7, 5]`, which is not
ascending, and the serialized field block emits id 7's line before
id 5's line. -/
theorem C1_counterexample :
    ¬ List.Pairwise (fun a b => a < b)
        (emittedFieldIds (((Component.init "X" "U" true true []).add_field
          (Field.make 7 "a")).add_field (Field.make 5 "b")))
    ∧ emittedFieldIds (((Component.init "X" "U" true true []).add_field
          (Field.make 7 "a")).add_field (Field.make 5 "b")) = [0, 1, 2, 3, 7, 5]
    ∧ Component.fieldsBlock (((Component.init "X" "U" true true []).add_field
          (Field.make 7 "a")).add_field (Field.make 5 "b"))
        = "F0 \"U\" 0 0 50 H V L CNN\nF1 \"X\" 0 0 50 H V L CNN\nF2 \"\" 0 0 50 H I L CNN\nF3 \"\" 0 0 50 H I L CNN\nF7 \"a\" 0 0 50 H V L CNN\nF5 \"b\" 0 0 50 H V L CNN\n" :=
  ⟨by decide, by decide, by decide⟩

/-- Claim C1, amended: serialization emits exactly one line per stored
Field, in dict iteration order, i.e. the order in which the ids were
first inserted (replacing an id keeps its position); ascending id order
is not guaranteed in general, but the claim's particular instance holds:
because ids 0–3 are pre-inserted at construction, adding the field with
id 7 before the field with id 2 still emits id 2's line (with the
replacing field's text) before id 7's line — the field block is the
lines of fields 0, 1, 2, 3, 7 in that order. -/
theorem C1_field_order (name reference t7 t2 : String) :
    Component.fieldsBlock (((Component.init name reference true true []).add_field
        (Field.make 7 t7)).add_field (Field.make 2 t2))
      = catLines ([Field.make 0 reference, Field.make 1 name, Field.make 2 t2,
          Field.makeInvisible 3 "", Field.make 7 t7].map Field.to_lib)
    ∧ emittedFieldIds (((Component.init name reference true true []).add_field
        (Field.make 7 t7)).add_field (Field.make 2 t2)) = [0, 1, 2, 3, 7] :=
  ⟨rfl, rfl⟩

/-- Claim C2: every serialized library is exactly the header prefix
`"EESchema-LIBRARY Version 2.3\n#encoding utf-8\n"`, then the components'
blocks concatenated in insertion order, then the footer suffix
`"#End Library\n"`; the empty library serializes to exactly the prefix
followed by the suffix. -/
theorem C2_library_envelope (L : SchemaLib) :
    L.to_lib = "EESchema-LIBRARY Version 2.3\n#encoding utf-8\n"
        ++ catAll (L.components.map Component.to_lib) ++ "#End Library\n"
    ∧ (SchemaLib.mk []).to_lib
        = "EESchema-LIBRARY Version 2.3\n#encoding utf-8\n#End Library\n" := by
  constructor
  · rw [SchemaLib.to_lib, ← header_append, String.append_assoc]
  · rfl

/-- Claim C3: on a symbol whose field ids are distinct (as they are for
every symbol the API can build), adding `f1` and then `f2` with the same
id leaves exactly one field stored at that id, namely `f2`; among the
emitted field lines, the ones for that id are exactly `f2`'s line; and
the field block is one line per stored field (the insertion itself is a
total function — no error is possible). -/
theorem C3_last_write_wins (c : Component) (f1 f2 : Field)
    (hwf : (c.fields.map Field.id).Nodup) (_hid : f1.id = f2.id) :
    ((c.add_field f1).add_field f2).fields.filter (fun g => g.id == f2.id) = [f2]
    ∧ (((c.add_field f1).add_field f2).fields.filter
        (fun g => g.id == f2.id)).map Field.to_lib = [f2.to_lib]
    ∧ Component.fieldsBlock ((c.add_field f1).add_field f2)
        = catLines (((c.add_field f1).add_field f2).fields.map Field.to_lib) := by
  have hwf1 : ((c.add_field f1).fields.map Field.id).Nodup :=
    nodup_id_dictInsert c.fields f1 hwf
  have h1 : ((c.add_field f1).add_field f2).fields.filter
      (fun g => g.id == f2.id) = [f2] :=
    filter_dictInsert_self (c.add_field f1).fields f2 hwf1
  exact ⟨h1, by rw [h1]; rfl, rfl⟩

/-- Witness for C3: `Symbol("S").add_field(Field(5, "a")).add_field(Field(5, "b"))`
stores exactly one field at id 5, namely `Field(5, "b")`. -/
theorem C3_witness :
    (((Component.init "S" "U" true true []).add_field (Field.make 5 "a")).add_field
        (Field.make 5 "b")).fields.filter
      (fun g => g.id == (Field.make 5 "b").id) = [Field.make 5 "b"] :=
  (C3_last_write_wins (Component.init "S" "U" true true []) (Field.make 5 "a")
    (Field.make 5 "b") (by decide) rfl).1

/-- Claim C4: immediately after `Component.__init__`, the field dict
holds id 0 = `Field(0, reference)`, id 1 = `Field(1, name)`, and ids 2
and 3 with empty text and `visible = False`; and after any sequence of
`add_field` / `add_pin` / `add_graphic` calls, ids 0–3 are still
present in the dict. -/
theorem C4_default_fields (name reference : String) (dpn dpname : Bool)
    (aliases : List String) (ops : List Op) :
    (Component.init name reference dpn dpname aliases).getField 0
        = some (Field.make 0 reference)
    ∧ (Component.init name reference dpn dpname aliases).getField 1
        = some (Field.make 1 name)
    ∧ (Component.init name reference dpn dpname aliases).getField 2
        = some (Field.makeInvisible 2 "")
    ∧ (Component.init name reference dpn dpname aliases).getField 3
        = some (Field.makeInvisible 3 "")
    ∧ (((Component.init name reference dpn dpname aliases).applyOps
          ops).getField 0).isSome = true
    ∧ (((Component.init name reference dpn dpname aliases).applyOps
          ops).getField 1).isSome = true
    ∧ (((Component.init name reference dpn dpname aliases).applyOps
          ops).getField 2).isSome = true
    ∧ (((Component.init name reference dpn dpname aliases).applyOps
          ops).getField 3).isSome = true := by
  refine ⟨rfl, rfl, rfl, rfl, ?_, ?_, ?_, ?_⟩ <;>
    exact isSome_getField_applyOps _ ops _ rfl

/-- Claim C5: pins and shapes share one sequence, appended in call
order; the lines between `DRAW` and `ENDDRAW` are one `to_lib` line per
graphic element in exactly that order, and in particular adding a Pin
and then a Rectangle emits the Pin's line immediately before the
Rectangle's line. -/
theorem C5_draw_order (c : Component) (ps : List GraphicItem) (p : Pin)
    (r : Rectangle) :
    (c.applyOps (ps.map Op.addPin)).graphic = c.graphic ++ ps
    ∧ Component.drawBlock (c.applyOps (ps.map Op.addPin))
        = c.drawBlock ++ catLines (ps.map GraphicItem.to_lib)
    ∧ Component.drawBlock ((c.add_pin (GraphicItem.pin p)).add_graphic
          (GraphicItem.rectangle r))
        = c.drawBlock ++ (p.to_lib ++ "\n" ++ (r.to_lib ++ "\n")) := by
  refine ⟨graphic_applyOps_addPins c ps, ?_, ?_⟩
  · rw [Component.drawBlock, graphic_applyOps_addPins, List.map_append,
      catLines_append]
    rfl
  · have hg : ((c.add_pin (GraphicItem.pin p)).add_graphic
        (GraphicItem.rectangle r)).graphic
        = c.graphic ++ [GraphicItem.pin p, GraphicItem.rectangle r] := by
      simp [Component.add_pin, Component.add_graphic]
    rw [Component.drawBlock, hg, List.map_append, catLines_append]
    rw [show Component.drawBlock c
        = catLines (c.graphic.map GraphicItem.to_lib) from rfl]
    simp [catLines, GraphicItem.to_lib, String.append_empty, String.append_assoc]

/-- Claim C6: `Pin("A1", "1")` with every other parameter at its default
serializes to exactly `X A1 1 0 0 100 R 50 50 0 0 I`. -/
theorem C6_pin_defaults :
    (Pin.make "A1" "1").to_lib = "X A1 1 0 0 100 R 50 50 0 0 I" := rfl

/-- Claim C7: `Polyline([(0,0), (10,0), (10,10)])` with default
thickness and fill serializes to exactly `P 3 0 1 0 0 0 10 0 10 10 N`;
in general the line is `P`, the point count, `0 1`, the thickness, the
points in order, and finally the fill code. -/
theorem C7_polyline (ps : List (Int × Int)) (t : Int) (fl : String) :
    (Polyline.make [(0, 0), (10, 0), (10, 10)]).to_lib
        = "P 3 0 1 0 0 0 10 0 10 10 N"
    ∧ (Polyline.mk ps t fl).to_lib
        = "P " ++ toString ps.length ++ " 0 1 " ++ toString t ++ " "
            ++ catPoints ps ++ fl :=
  ⟨rfl, rfl⟩

/-- Claim C8: `Text.to_lib` inserts its content through the space→`~`
substitution (the substituted slot contains no space at all), while
`Field.to_lib` inserts the field text verbatim between fixed
surroundings that do not depend on the text, and alias names are joined
verbatim on the `ALIAS` line; concretely, a Text and Field both holding
`"hello world"` serialize with `hello~world` and `"hello world"`
respectively. -/
theorem C8_tilde_only_for_text (t : Text) (f : Field) (a : String)
    (al : List String) :
    Text.to_lib t = Text.preText t ++ tildeSpaces t.text ++ Text.postText t
    ∧ ((tildeSpaces t.text).data.all (fun c => !(c == ' '))) = true
    ∧ Field.to_lib f = Field.preText f ++ f.text ++ Field.postText f
    ∧ Component.aliasBlock ⟨"N", "U", true, true, a :: al, [], []⟩
        = "ALIAS " ++ joinSpace (a :: al) ++ "\n"
    ∧ (Text.make 0 0 "hello world").to_lib
        = "T 0 0 0 60 0 0 1 hello~world Normal 1 C C"
    ∧ (Field.make 4 "hello world").to_lib
        = "F4 \"hello world\" 0 0 50 H V L CNN" := by
  refine ⟨?_, ?_, ?_, ?_, rfl, rfl⟩
  · simp [Text.to_lib, Text.preText, Text.postText, String.append_assoc]
  · simp only [tildeSpaces, List.all_map, List.all_eq_true, Function.comp]
    intro c _
    by_cases h : c = ' ' <;> simp [h]
  · simp [Field.to_lib, Field.preText, Field.postText, String.append_assoc]
  · simp [Component.aliasBlock, String.append_assoc]

/-- Claim C9: serialization is deterministic.  In this embedding every
`to_lib` is a pure function of the model, so the serialized text depends
only on the (unchanged) model value: two calls on equal models give
byte-identical output. -/
theorem C9_deterministic (L L2 : SchemaLib) (h : L = L2) :
    SchemaLib.to_lib L = SchemaLib.to_lib L2 := by rw [h]

/-- Witness for C9: two runs on one concrete library agree. -/
theorem C9_witness :
    SchemaLib.to_lib (SchemaLib.mk [Component.init "LED" "U" true true []])
      = SchemaLib.to_lib (SchemaLib.mk [Component.init "LED" "U" true true []]) :=
  C9_deterministic _ _ rfl

/-- Claim C10: `add_field f` changes only the dict entry at `f.id` (any
other id reads the same, `f.id` now reads `f`) and leaves name,
reference, both visibility flags, aliases and the graphic sequence
unchanged; `add_pin p` appends exactly `p` to the graphic sequence and
leaves the field dict and every other attribute unchanged. -/
theorem C10_frame (c : Component) (f : Field) (p : GraphicItem) (j : Nat)
    (hj : j ≠ f.id) :
    (c.add_field f).getField j = c.getField j
    ∧ (c.add_field f).getField f.id = some f
    ∧ (c.add_field f).name = c.name
    ∧ (c.add_field f).reference = c.reference
    ∧ (c.add_field f).drawpinnumber = c.drawpinnumber
    ∧ (c.add_field f).drawpinname = c.drawpinname
    ∧ (c.add_field f).aliases = c.aliases
    ∧ (c.add_field f).graphic = c.graphic
    ∧ (c.add_pin p).graphic = c.graphic ++ [p]
    ∧ (c.add_pin p).fields = c.fields
    ∧ (c.add_pin p).name = c.name
    ∧ (c.add_pin p).reference = c.reference
    ∧ (c.add_pin p).drawpinnumber = c.drawpinnumber
    ∧ (c.add_pin p).drawpinname = c.drawpinname
    ∧ (c.add_pin p).aliases = c.aliases :=
  ⟨getField_add_field_ne c f j hj, getField_add_field_self c f, rfl, rfl, rfl,
    rfl, rfl, rfl, rfl, rfl, rfl, rfl, rfl, rfl, rfl⟩

/-- Witness for C10: adding `Field(5, "a")` to a fresh symbol leaves the
lookup at id 9 unchanged. -/
theorem C10_witness :
    ((Component.init "S" "U" true true []).add_field (Field.make 5 "a")).getField 9
      = (Component.init "S" "U" true true []).getField 9 :=
  (C10_frame (Component.init "S" "U" true true []) (Field.make 5 "a")
    (GraphicItem.pin (Pin.make "A1" "1")) 9 (by decide)).1

end EESchema
